import Mathlib

/-!
# Verification of the matrixWeatherBot event-handling core

Shallow embedding of the bot's event-routing layer (`callbacks.py`), the
command trigger selection (`bot_commands.py`), the session loop of
`main.py` / `verify.py`, and the to-device verification handler, together
with theorems settling the specification claims about them.
-/

set_option autoImplicit false
set_option linter.unusedVariables false

namespace MatrixWeatherBot

/-! ## Message dispatch (`callbacks.py`, `Callbacks.message`, lines 162-195)

The callback receives a room and a message event.  It ignores messages
from the bot itself; otherwise it checks `msg.startswith(command_prefix)`.
Without the command prefix the body goes to the general `Message` pipeline
(the `room.is_group` conjunct is commented out in the source, so this does
not depend on the room).  With the prefix, `msg[len(command_prefix):]` is
handed to the `Command` pipeline.  The body is never split. -/

/-- A pipeline invocation made by `Callbacks.message`: either the general
message listener or the command processor, carrying the text passed on.
Message text is modelled as its sequence of code points (`List Char`),
matching Python's view of `str`. -/
inductive Dispatch where
  | messagePipeline (text : List Char)
  | commandPipeline (text : List Char)
deriving DecidableEq

/-- Embedding of `Callbacks.message` (callbacks.py lines 162-195): the list
of pipeline invocations it performs, in order.  `cmdPref` is
`config.command_prefix`, `selfUser` is `self.client.user`, `isGroup` is
`room.is_group` (present on the room but unused: the source comments out
the `and not room.is_group` conjunct).  `msg.startswith(p)` is prefix
matching and `msg[len(p):]` drops `len(p)` code points. -/
def messageDispatch (cmdPref : List Char) (selfUser sender : String)
    (isGroup : Bool) (body : List Char) : List Dispatch :=
  if sender = selfUser then []
  else if !(cmdPref.isPrefixOf body) then
    [Dispatch.messagePipeline body]
  else
    [Dispatch.commandPipeline (body.drop cmdPref.length)]

/-! ## Command trigger selection (`bot_commands.py`, `Command.process`)

`process` computes `trigger = self.command.lower().split(maxsplit=1)[0]`
and compares it with `startswith` against the known command words.  For a
command string with no non-whitespace characters, `split` returns the
empty list and the `[0]` subscript raises `IndexError`. -/

/-- Python's whitespace `str.split()`: split on runs of whitespace,
dropping empty pieces (so the result is the list of tokens). -/
def pySplitWs (s : List Char) : List (List Char) :=
  (s.splitOnP (fun c => c.isWhitespace)).filter (fun t => t ≠ [])

/-- What `Command.process` (bot_commands.py lines 44-56) does with a
command string: which handler it selects, or the `IndexError` raised by
`self.command.lower().split(maxsplit=1)[0]` when the string holds no
token. -/
inductive CommandOutcome where
  | indexError
  | echoCmd
  | helpCmd
  | weatherCmd
  | unknownCmd
deriving DecidableEq

/-- Embedding of `Command.process` (bot_commands.py lines 44-56):
`trigger = self.command.lower().split(maxsplit=1)[0]` is the first
whitespace token of the lower-cased command, then compared with
`startswith` against the command words. -/
def commandProcess (command : List Char) : CommandOutcome :=
  match pySplitWs (command.map Char.toLower) with
  | [] => CommandOutcome.indexError
  | trigger :: _ =>
    if "echo".toList.isPrefixOf trigger then CommandOutcome.echoCmd
    else if "help".toList.isPrefixOf trigger then CommandOutcome.helpCmd
    else if "weather".toList.isPrefixOf trigger then CommandOutcome.weatherCmd
    else CommandOutcome.unknownCmd

/-! ## Invite handling (`callbacks.py`, `Callbacks.invite`, lines 197-230)

If the whitelist policy is enabled and the sender is not whitelisted, the
handler tries `room_leave` up to 3 times, returning on the first non-error
result.  If all 3 leave calls return `RoomLeaveError`, the `for` loop
completes without `return` and control falls through to the join loop,
which tries `join` up to 3 times, breaking on the first non-error
result. -/

/-- Result of a membership call (`room_leave` / `join`): either a typed
error (`RoomLeaveError` / `JoinError`) or anything else (success). -/
inductive MembershipResult where
  | ok
  | err
deriving DecidableEq

/-- A transport call issued by `Callbacks.invite`. -/
inductive InviteAction where
  | leave
  | join
deriving DecidableEq

/-- Configuration fields consulted by `Callbacks.invite`. -/
structure InviteConfig where
  invite_whitelist_enabled : Bool
  invite_whitelist : List String
deriving DecidableEq

/-- The `for attempt in range(3)` leave loop (callbacks.py lines 205-217),
iterating over the attempt numbers in `attempts`: issues one `room_leave`
per iteration; on a non-`RoomLeaveError` result the whole handler returns
(second component `true`).  `res i` is the result of the call made on
attempt `i`. -/
def leaveLoop (res : Nat → MembershipResult) : List Nat → List InviteAction × Bool
  | [] => ([], false)
  | i :: rest =>
    match res i with
    | MembershipResult.ok => ([InviteAction.leave], true)
    | MembershipResult.err =>
      let p := leaveLoop res rest
      (InviteAction.leave :: p.1, p.2)

/-- The `for attempt in range(3)` join loop (callbacks.py lines 220-230),
iterating over the attempt numbers in `attempts`: issues one `join` per
iteration; breaks on the first non-`JoinError` result. -/
def joinLoop (res : Nat → MembershipResult) : List Nat → List InviteAction
  | [] => []
  | i :: rest =>
    match res i with
    | MembershipResult.ok => [InviteAction.join]
    | MembershipResult.err => InviteAction.join :: joinLoop res rest

/-- Embedding of `Callbacks.invite` (callbacks.py lines 197-230): the
sequence of membership calls it issues, given the per-attempt results of
the leave and join calls.  `[0, 1, 2]` is Python's `range(3)`. -/
def invite (cfg : InviteConfig) (sender : String)
    (leaveRes joinRes : Nat → MembershipResult) : List InviteAction :=
  if cfg.invite_whitelist_enabled && !(cfg.invite_whitelist.contains sender) then
    let p := leaveLoop leaveRes [0, 1, 2]
    if p.2 then p.1 else p.1 ++ joinLoop joinRes [0, 1, 2]
  else
    joinLoop joinRes [0, 1, 2]

/-- Number of leave calls in an action list. -/
def countLeave : List InviteAction → Nat
  | [] => 0
  | InviteAction.leave :: rest => countLeave rest + 1
  | InviteAction.join :: rest => countLeave rest

/-- Number of join calls in an action list. -/
def countJoin : List InviteAction → Nat
  | [] => 0
  | InviteAction.join :: rest => countJoin rest + 1
  | InviteAction.leave :: rest => countJoin rest

/-! ## Session loop (`main.py`, `main`, lines 62-120; `verify.py`,
`main_verify`, lines 77-132)

Both files run the same `while True` loop.  `error_retries` starts at 0.
Each iteration calls `client.login`.  On a `LoginError` result: if
`error_retries < 3`, increment it, sleep 15 s and `continue`; otherwise
`return False`.  On any other login result, `error_retries = 0`, keys are
uploaded and `sync_forever` runs until it raises.  A `LocalProtocolError`
raised by `login` is fatal (`return False`) when encryption is enabled;
otherwise it is logged and control falls through to key upload and sync
without resetting the counter.  In `main.py` a `KeyboardInterrupt` is
caught and logged, and a network error is caught with a 15 s sleep; in
both cases the `while True` loop then runs its `finally` (closing the
client) and begins a new iteration.  There is no `break` or `return` on
the `KeyboardInterrupt` path. -/

/-- How one `sync_forever` call (or the fall-through after a logged
`LocalProtocolError`) ends: with a `KeyboardInterrupt` or with one of the
caught network/timeout errors. -/
inductive SyncExit where
  | keyboardInterrupt
  | networkError
deriving DecidableEq

/-- What one loop iteration observes: the login result, and, when control
reaches the streaming phase, how that phase ends. -/
inductive LoginEvent where
  | loginError
  | localProtocolError (ex : SyncExit)
  | success (ex : SyncExit)
deriving DecidableEq

/-- Loop state: the `error_retries` counter plus counts of `client.login`
calls and `client.close()` calls (the `finally` clause) performed so
far. -/
structure SessionState where
  error_retries : Nat
  logins : Nat
  closes : Nat
deriving DecidableEq

/-- State at loop entry (main.py line 62 / verify.py line 77). -/
def initSession : SessionState := ⟨0, 0, 0⟩

/-- Result of one loop iteration: either the loop continues with a new
state, or the function returns `False` (fatal). -/
inductive StepResult where
  | next (s : SessionState)
  | fatal (s : SessionState)
deriving DecidableEq

/-- The loop state carried by a step result. -/
def StepResult.state : StepResult → SessionState
  | StepResult.next s => s
  | StepResult.fatal s => s

/-- One iteration of the `while True` body (main.py lines 63-120), given
what the iteration observes.  `enc` is `config.enable_encryption`.  Every
iteration performs one login call and, on every exit path, one
`client.close()` in the `finally` clause. -/
def sessionStep (enc : Bool) (s : SessionState) (e : LoginEvent) : StepResult :=
  let s1 : SessionState := { s with logins := s.logins + 1 }
  match e with
  | LoginEvent.loginError =>
    if s1.error_retries < 3 then
      StepResult.next { s1 with
        error_retries := s1.error_retries + 1, closes := s1.closes + 1 }
    else
      StepResult.fatal { s1 with closes := s1.closes + 1 }
  | LoginEvent.localProtocolError ex =>
    if enc then StepResult.fatal { s1 with closes := s1.closes + 1 }
    else StepResult.next { s1 with closes := s1.closes + 1 }
  | LoginEvent.success ex =>
    StepResult.next { s1 with error_retries := 0, closes := s1.closes + 1 }

/-- Run the loop over a finite observation trace; stops early when an
iteration returns (`fatal`).  Second component: whether the run returned
`False` before the trace was exhausted. -/
def sessionRun (enc : Bool) : SessionState → List LoginEvent → SessionState × Bool
  | s, [] => (s, false)
  | s, e :: es =>
    match sessionStep enc s e with
    | StepResult.next s1 => sessionRun enc s1 es
    | StepResult.fatal s1 => (s1, true)

/-- The states reached after each iteration of a run (ending at the fatal
state when the run returns early). -/
def statesAlong (enc : Bool) : SessionState → List LoginEvent → List SessionState
  | _, [] => []
  | s, e :: es =>
    match sessionStep enc s e with
    | StepResult.next s1 => s1 :: statesAlong enc s1 es
    | StepResult.fatal s1 => [s1]

/-! ## To-device verification handler (`callbacks.py`,
`Callbacks.to_device_callback`, lines 24-161)

The module imports of `callbacks.py` (lines 1-8) bring the names
`send_text_to_room`, `Command`, `JoinError`, `RoomLeaveError`, `Message`
and `logging` into scope; module level code defines `logger` and the class
`Callbacks`.  The handler dispatches on
`isinstance(event, KeyVerificationStart)`,
`... KeyVerificationCancel)`, `... KeyVerificationKey)`,
`... KeyVerificationMac)` in that order, and each branch compares call
results against `ToDeviceError`; the `except BaseException` clause
evaluates `traceback.format_exc()`.  We model Python name resolution
explicitly: evaluating a name not in scope raises `NameError`. -/

/-- The names defined at module scope in `callbacks.py` (its imports,
lines 1-8, plus `logger` and the `Callbacks` class itself). -/
def callbacksModuleScope : List String :=
  ["send_text_to_room", "Command", "JoinError", "RoomLeaveError",
   "Message", "logging", "logger", "Callbacks"]

/-- The runtime kind of the event passed to `to_device_callback`. -/
inductive VerificationEventKind where
  | start
  | cancel
  | key
  | mac
  | other
deriving DecidableEq

/-- A transport call the handler can issue on `self.client`. -/
inductive TransportCall where
  | acceptKeyVerification
  | toDevice
  | confirmShortAuthString
  | cancelKeyVerification (reject : Bool)
deriving DecidableEq

/-- Outcome of the `try` body: normal completion, or an exception (a
`NameError` on the named missing identifier) after the listed transport
calls were made. -/
inductive TryOutcome where
  | done (calls : List TransportCall)
  | raised (missing : String) (calls : List TransportCall)
deriving DecidableEq

/-- The `try` body of `to_device_callback` (callbacks.py lines 26-159),
with Python name resolution made explicit: each `isinstance` guard and
each `ToDeviceError` comparison first resolves the class name in `scope`
and raises `NameError` when it is absent.  `emojiSupported` models
`"emoji" in event.short_authentication_string`; `yn` models the
`input("Do the emojis match? (Y/N) ")` reply. -/
def toDeviceTryBody (scope : List String) (ev : VerificationEventKind)
    (emojiSupported : Bool) (yn : List Char) : TryOutcome :=
  if !(scope.contains "KeyVerificationStart") then
    TryOutcome.raised "KeyVerificationStart" []
  else match ev with
  | VerificationEventKind.start =>
    if !emojiSupported then TryOutcome.done []
    else if !(scope.contains "ToDeviceError") then
      TryOutcome.raised "ToDeviceError" [TransportCall.acceptKeyVerification]
    else
      TryOutcome.done [TransportCall.acceptKeyVerification, TransportCall.toDevice]
  | ev1 =>
    if !(scope.contains "KeyVerificationCancel") then
      TryOutcome.raised "KeyVerificationCancel" []
    else match ev1 with
    | VerificationEventKind.cancel =>
      if !(scope.contains "ToDeviceError") then
        TryOutcome.raised "ToDeviceError" [TransportCall.cancelKeyVerification false]
      else TryOutcome.done [TransportCall.cancelKeyVerification false]
    | ev2 =>
      if !(scope.contains "KeyVerificationKey") then
        TryOutcome.raised "KeyVerificationKey" []
      else match ev2 with
      | VerificationEventKind.key =>
        if yn.map Char.toLower = ['y'] then
          if !(scope.contains "ToDeviceError") then
            TryOutcome.raised "ToDeviceError" [TransportCall.confirmShortAuthString]
          else TryOutcome.done [TransportCall.confirmShortAuthString]
        else
          if !(scope.contains "ToDeviceError") then
            TryOutcome.raised "ToDeviceError" [TransportCall.cancelKeyVerification true]
          else TryOutcome.done [TransportCall.cancelKeyVerification true]
      | ev3 =>
        if !(scope.contains "KeyVerificationMac") then
          TryOutcome.raised "KeyVerificationMac" []
        else match ev3 with
        | VerificationEventKind.mac =>
          if !(scope.contains "ToDeviceError") then
            TryOutcome.raised "ToDeviceError" [TransportCall.toDevice]
          else TryOutcome.done [TransportCall.toDevice]
        | _ => TryOutcome.done []

/-- Outcome of the whole handler: normal return, or an exception escaping
it, after the listed transport calls. -/
inductive HandlerOutcome where
  | completed (calls : List TransportCall)
  | uncaught (missing : String) (calls : List TransportCall)
deriving DecidableEq

/-- Embedding of `Callbacks.to_device_callback` (callbacks.py lines
24-161): the `try` body, and on any exception the
`except BaseException: print(traceback.format_exc())` clause, which itself
resolves the name `traceback` and raises `NameError` out of the handler
when it is absent from scope. -/
def to_device_callback (scope : List String) (ev : VerificationEventKind)
    (emojiSupported : Bool) (yn : List Char) : HandlerOutcome :=
  match toDeviceTryBody scope ev emojiSupported yn with
  | TryOutcome.done calls => HandlerOutcome.completed calls
  | TryOutcome.raised _ calls =>
    if scope.contains "traceback" then HandlerOutcome.completed calls
    else HandlerOutcome.uncaught "traceback" calls

/-- The human-decision point of the `KeyVerificationKey` branch
(callbacks.py lines 111-125): `input(...)` yields `yn`; if
`yn.lower() == "y"` the handler calls `confirm_short_auth_string`,
otherwise it calls `cancel_key_verification(..., reject=True)`. -/
def sasDecision (yn : List Char) : TransportCall :=
  if yn.map Char.toLower = ['y'] then TransportCall.confirmShortAuthString
  else TransportCall.cancelKeyVerification true

/-! ## Verification-only run mode (`verify.py`, `main_verify`)

`main_verify` (verify.py line 72) constructs `Callbacks(client)` with a
single positional argument, before the login loop (lines 77-132) is
entered.  `Callbacks.__init__` (callbacks.py line 12) declares three
required parameters `client, store, config` with no defaults, so the call
raises `TypeError` for the two missing positional arguments. -/

/-- The required parameters of `Callbacks.__init__` after `self`
(callbacks.py line 12); none has a default. -/
def callbacksInitRequiredParams : List String := ["client", "store", "config"]

/-- The positional arguments `main_verify` passes to `Callbacks`
(verify.py line 72). -/
def mainVerifyCallbacksArgs : List String := ["client"]

/-- How a `main_verify` run ends: a `TypeError` at the `Callbacks(client)`
call (with the number of missing required arguments), or entry into the
login loop. -/
inductive VerifyRunOutcome where
  | typeErrorMissingArgs (missing : Nat)
  | loopEntered
deriving DecidableEq

/-- Embedding of the prefix of `main_verify` (verify.py lines 44-78): the
`Callbacks` construction at line 72 precedes the `while True` login loop,
so an arity mismatch ends the run before any login call. -/
def mainVerifyRun : VerifyRunOutcome :=
  if mainVerifyCallbacksArgs.length < callbacksInitRequiredParams.length then
    VerifyRunOutcome.typeErrorMissingArgs
      (callbacksInitRequiredParams.length - mainVerifyCallbacksArgs.length)
  else
    VerifyRunOutcome.loopEntered

/-! ## Helper lemmas -/

/-- The join loop only issues join calls. -/
theorem countLeave_joinLoop (res : Nat → MembershipResult) (attempts : List Nat) :
    countLeave (joinLoop res attempts) = 0 := by
  induction attempts with
  | nil => rfl
  | cons i rest ih =>
    cases h : res i <;> simp [joinLoop, h, countLeave, ih]

/-- Every step of the session loop keeps the retry counter at most 3. -/
theorem sessionStep_retries_le (enc : Bool) (s : SessionState) (e : LoginEvent)
    (hs : s.error_retries ≤ 3) : (sessionStep enc s e).state.error_retries ≤ 3 := by
  cases e with
  | loginError =>
    simp only [sessionStep]
    split <;> simp [StepResult.state] <;> omega
  | localProtocolError ex =>
    simp only [sessionStep]
    split <;> simpa [StepResult.state] using hs
  | success ex =>
    simp [sessionStep, StepResult.state]

/-- The retry-counter bound is an invariant of the whole loop. -/
theorem statesAlong_retries_le (enc : Bool) (tr : List LoginEvent) :
    ∀ s : SessionState, s.error_retries ≤ 3 →
      ∀ s1 ∈ statesAlong enc s tr, s1.error_retries ≤ 3 := by
  induction tr with
  | nil => intro s hs s1 h1; simp [statesAlong] at h1
  | cons e es ih =>
    intro s hs s1 h1
    have hstep := sessionStep_retries_le enc s e hs
    cases hse : sessionStep enc s e with
    | next s2 =>
      rw [hse] at hstep
      simp only [statesAlong, hse, List.mem_cons] at h1
      rcases h1 with rfl | h1
      · exact hstep
      · exact ih s2 hstep s1 h1
    | fatal s2 =>
      rw [hse] at hstep
      simp only [statesAlong, hse, List.mem_singleton] at h1
      subst h1
      exact hstep

/-! ## Claims -/

/-- Claim C1, corrected.  For an invite whose sender is not whitelisted
while the whitelist policy is enabled, `Callbacks.invite` issues at most 3
leave attempts; but it issues a join attempt when (and only when) all 3
leave attempts fail, because the leave `for` loop then completes without
`return` and control falls through to the join loop. -/
theorem invite_reject_bounded (cfg : InviteConfig) (sender : String)
    (leaveRes joinRes : Nat → MembershipResult)
    (hEnabled : cfg.invite_whitelist_enabled = true)
    (hNotIn : cfg.invite_whitelist.contains sender = false) :
    countLeave (invite cfg sender leaveRes joinRes) ≤ 3
    ∧ (countJoin (invite cfg sender leaveRes joinRes) ≠ 0 →
        leaveRes 0 = MembershipResult.err ∧ leaveRes 1 = MembershipResult.err
        ∧ leaveRes 2 = MembershipResult.err) := by
  have hmem : sender ∉ cfg.invite_whitelist := by
    simpa using hNotIn
  cases h0 : leaveRes 0 <;> cases h1 : leaveRes 1 <;> cases h2 : leaveRes 2 <;>
    simp [invite, hEnabled, hmem, leaveLoop, h0, h1, h2, countLeave, countJoin,
      countLeave_joinLoop]

/-- Witness for C1's corrected theorem at a concrete input. -/
theorem invite_reject_bounded_witness :
    countLeave (invite ⟨true, ["@admin:example.org"]⟩ "@stranger:example.org"
        (fun _ => MembershipResult.ok) (fun _ => MembershipResult.ok)) ≤ 3
    ∧ (countJoin (invite ⟨true, ["@admin:example.org"]⟩ "@stranger:example.org"
        (fun _ => MembershipResult.ok) (fun _ => MembershipResult.ok)) ≠ 0 →
        (fun _ => MembershipResult.ok) 0 = MembershipResult.err
        ∧ (fun _ => MembershipResult.ok) 1 = MembershipResult.err
        ∧ (fun _ => MembershipResult.ok) 2 = MembershipResult.err) :=
  invite_reject_bounded ⟨true, ["@admin:example.org"]⟩ "@stranger:example.org"
    (fun _ => MembershipResult.ok) (fun _ => MembershipResult.ok) rfl (by decide)

/-- Counterexample to C1 as stated: when all 3 leave calls return
`RoomLeaveError`, the handler goes on to issue a join attempt for the very
room it was told to reject. -/
theorem invite_join_after_failed_leaves :
    invite ⟨true, ["@admin:example.org"]⟩ "@stranger2:example.org"
        (fun _ => MembershipResult.err) (fun _ => MembershipResult.ok)
      = [InviteAction.leave, InviteAction.leave, InviteAction.leave, InviteAction.join]
    ∧ countJoin [InviteAction.leave, InviteAction.leave, InviteAction.leave,
        InviteAction.join] = 1
    ∧ (["@admin:example.org"] : List String).contains "@stranger2:example.org" = false :=
  ⟨rfl, rfl, by decide⟩

/-- Claim C2, corrected.  Because the `room.is_group` conjunct is commented
out in `Callbacks.message`, a unit without the command prefix from another
user is forwarded to the general-message pipeline in every room, whatever
its group classification. -/
theorem plain_message_always_forwarded (cmdPref : List Char)
    (selfUser sender : String) (isGroup : Bool) (body : List Char)
    (hSelf : sender ≠ selfUser) (hNo : cmdPref.isPrefixOf body = false) :
    messageDispatch cmdPref selfUser sender isGroup body
      = [Dispatch.messagePipeline body] := by
  simp [messageDispatch, hSelf, hNo]

/-- Witness for C2's corrected theorem at a concrete input. -/
theorem plain_message_always_forwarded_witness :
    messageDispatch "!".toList "@bot:example.org" "@alice:example.org" true
        "hi there".toList
      = [Dispatch.messagePipeline "hi there".toList] :=
  plain_message_always_forwarded "!".toList "@bot:example.org" "@alice:example.org"
    true "hi there".toList (by decide) (by decide)

/-- Counterexample to C2 as stated: in a multi-member room
(`room.is_group = true`) a message without the command prefix is not
ignored — the general-message pipeline is invoked. -/
theorem group_room_forwarding_counterexample :
    messageDispatch "!".toList "@bot:example.org" "@user:example.org" true
        "hello".toList
      = [Dispatch.messagePipeline "hello".toList] := by decide

/-- Claim C3, corrected.  `Callbacks.message` never splits the body: every
message from another user results in exactly one pipeline invocation,
double newlines notwithstanding. -/
theorem message_single_unit (cmdPref : List Char) (selfUser sender : String)
    (isGroup : Bool) (body : List Char) (hSelf : sender ≠ selfUser) :
    (messageDispatch cmdPref selfUser sender isGroup body).length = 1 := by
  unfold messageDispatch
  rw [if_neg hSelf]
  cases h : cmdPref.isPrefixOf body <;> simp [h]

/-- Witness for C3's corrected theorem at the spec's example body. -/
theorem message_single_unit_witness :
    (messageDispatch "!".toList "@bot:example.org" "@user:example.org" false
      "!cmd A\n\nB\n\n!cmd C".toList).length = 1 :=
  message_single_unit "!".toList "@bot:example.org" "@user:example.org" false
    "!cmd A\n\nB\n\n!cmd C".toList (by decide)

/-- Counterexample to C3 as stated: the spec's example body is dispatched
as one single command unit carrying both paragraph boundaries, not as the
three units command(A), message-or-drop(B), command(C). -/
theorem paragraph_dispatch_counterexample :
    messageDispatch "!".toList "@bot:example.org" "@user:example.org" false
        "!cmd A\n\nB\n\n!cmd C".toList
      = [Dispatch.commandPipeline "cmd A\n\nB\n\n!cmd C".toList]
    ∧ (messageDispatch "!".toList "@bot:example.org" "@user:example.org" false
        "!cmd A\n\nB\n\n!cmd C".toList).length ≠ 3 := by
  refine ⟨by decide, by decide⟩

/-- Claim C4, confirmed.  Along every run of the session loop from its
initial state, `error_retries` never exceeds 3; with the counter at 3 a
further `LoginError` makes the run return `False` at once, consuming no
further events; and the counter is 0 immediately after any successful
login. -/
theorem login_retry_budget (enc : Bool) :
    (∀ tr : List LoginEvent, ∀ s1 ∈ statesAlong enc initSession tr,
      s1.error_retries ≤ 3)
    ∧ (∀ (s : SessionState) (es : List LoginEvent), s.error_retries = 3 →
        sessionRun enc s (LoginEvent.loginError :: es)
          = ({ s with logins := s.logins + 1, closes := s.closes + 1 }, true))
    ∧ (∀ (s : SessionState) (ex : SyncExit),
        (sessionStep enc s (LoginEvent.success ex)).state.error_retries = 0) := by
  refine ⟨fun tr => statesAlong_retries_le enc tr initSession (by decide), ?_, ?_⟩
  · intro s es h
    simp [sessionRun, sessionStep, h]
  · intro s ex
    simp [sessionStep, StepResult.state]

/-- Witness for C4 at concrete inputs. -/
theorem login_retry_budget_witness :
    ((⟨1, 1, 1⟩ : SessionState).error_retries ≤ 3)
    ∧ sessionRun true ⟨3, 5, 5⟩ [LoginEvent.loginError] = (⟨3, 6, 6⟩, true)
    ∧ (sessionStep true ⟨2, 0, 0⟩
        (LoginEvent.success SyncExit.networkError)).state.error_retries = 0 :=
  ⟨(login_retry_budget true).1 [LoginEvent.loginError] ⟨1, 1, 1⟩ (by decide),
   (login_retry_budget true).2.1 ⟨3, 5, 5⟩ [] rfl,
   (login_retry_budget true).2.2 ⟨2, 0, 0⟩ SyncExit.networkError⟩

/-- Claim C5 (code bug).  In `main.py` the `except KeyboardInterrupt`
clause only logs; there is no `break` or `return`, so after the `finally`
the `while True` loop begins a new iteration: here, after a
`KeyboardInterrupt` during the streaming phase, the loop performs a second
login attempt instead of exiting. -/
theorem keyboard_interrupt_not_exiting :
    sessionStep true initSession (LoginEvent.success SyncExit.keyboardInterrupt)
      = StepResult.next ⟨0, 1, 1⟩
    ∧ (sessionRun true initSession
        [LoginEvent.success SyncExit.keyboardInterrupt,
         LoginEvent.loginError]).1.logins = 2
    ∧ (sessionRun true initSession
        [LoginEvent.success SyncExit.keyboardInterrupt,
         LoginEvent.loginError]).2 = false :=
  ⟨rfl, rfl, rfl⟩

/-- Claim C6 (code bug).  Evaluating the handler at a Cancel event: the
first `isinstance` guard already raises `NameError`
(`KeyVerificationStart` is not imported), the `except BaseException`
clause then evaluates `traceback.format_exc()` and raises `NameError`
again, and that one escapes the handler — no failure is logged and no
transport call is made. -/
theorem cancel_event_uncaught_fault :
    to_device_callback callbacksModuleScope VerificationEventKind.cancel true []
      = HandlerOutcome.uncaught "traceback" [] := rfl

/-- Claim C7, confirmed.  For every to-device event, the handler raises
`NameError` before any transport call: none of the verification event
classes nor `ToDeviceError` nor `traceback` is in the module scope of
`callbacks.py`, so evaluation fails at the first `isinstance` guard, no
accept/key-share/confirm/cancel/MAC call is issued, and the catch-all
clause itself raises on `traceback.format_exc()`. -/
theorem to_device_always_name_error (ev : VerificationEventKind)
    (emojiSupported : Bool) (yn : List Char) :
    to_device_callback callbacksModuleScope ev emojiSupported yn
      = HandlerOutcome.uncaught "traceback" []
    ∧ callbacksModuleScope.contains "KeyVerificationStart" = false
    ∧ callbacksModuleScope.contains "KeyVerificationCancel" = false
    ∧ callbacksModuleScope.contains "KeyVerificationKey" = false
    ∧ callbacksModuleScope.contains "KeyVerificationMac" = false
    ∧ callbacksModuleScope.contains "ToDeviceError" = false
    ∧ callbacksModuleScope.contains "traceback" = false :=
  ⟨rfl, rfl, rfl, rfl, rfl, rfl, rfl⟩

/-- Claim C8, confirmed.  `main_verify` passes one positional argument to
`Callbacks`, whose `__init__` requires three; the construction precedes
the login loop, so the verification-only run mode dies with a `TypeError`
(2 missing arguments) before any login attempt or event processing. -/
theorem main_verify_type_error :
    mainVerifyRun = VerifyRunOutcome.typeErrorMissingArgs 2
    ∧ mainVerifyRun ≠ VerifyRunOutcome.loopEntered
    ∧ mainVerifyCallbacksArgs.length = 1
    ∧ callbacksInitRequiredParams.length = 3 :=
  ⟨rfl, by decide, rfl, rfl⟩

/-- Claim C9, corrected.  At the human-decision point, an input whose
lower-casing is exactly "y" confirms the short authentication string;
every other input — "reject" answers and silence alike — cancels the
transaction with `reject=True`, the rejected disposition.  No
neutral-disposition cancel exists at this point. -/
theorem sas_decision_mapping :
    sasDecision "y".toList = TransportCall.confirmShortAuthString
    ∧ sasDecision "Y".toList = TransportCall.confirmShortAuthString
    ∧ ∀ yn : List Char, yn.map Char.toLower ≠ "y".toList →
        sasDecision yn = TransportCall.cancelKeyVerification true := by
  refine ⟨by decide, by decide, ?_⟩
  intro yn h
  simp only [sasDecision, String.toList] at h ⊢
  rw [if_neg h]

/-- Witness for C9's corrected theorem at a concrete input. -/
theorem sas_decision_mapping_witness :
    sasDecision "y".toList = TransportCall.confirmShortAuthString
    ∧ sasDecision "Y".toList = TransportCall.confirmShortAuthString
    ∧ sasDecision "n".toList = TransportCall.cancelKeyVerification true :=
  ⟨sas_decision_mapping.1, sas_decision_mapping.2.1,
   sas_decision_mapping.2.2 "n".toList (by decide)⟩

/-- Counterexample to C9 as stated: an empty reply (no response) cancels
with `reject=True`, not with the neutral `reject=False` disposition the
claim describes. -/
theorem sas_neutral_cancel_counterexample :
    sasDecision [] = TransportCall.cancelKeyVerification true
    ∧ sasDecision [] ≠ TransportCall.cancelKeyVerification false := by
  refine ⟨by decide, by decide⟩

/-- Claim C10, corrected.  A unit starting with the command prefix has
only the prefix stripped (no whitespace stripping) and is always forwarded
to the command pipeline; when the remainder holds no token (it is empty or
whitespace-only), `Command.process` raises `IndexError` instead of the
unit being dropped silently. -/
theorem command_unit_forwarding (cmdPref : List Char) (selfUser sender : String)
    (isGroup : Bool) (body : List Char)
    (hSelf : sender ≠ selfUser) (hPref : cmdPref.isPrefixOf body = true) :
    messageDispatch cmdPref selfUser sender isGroup body
      = [Dispatch.commandPipeline (body.drop cmdPref.length)]
    ∧ (pySplitWs ((body.drop cmdPref.length).map Char.toLower) = [] →
        commandProcess (body.drop cmdPref.length) = CommandOutcome.indexError) := by
  constructor
  · simp [messageDispatch, hSelf, hPref]
  · intro h
    unfold commandProcess
    rw [h]

/-- Witness for C10's corrected theorem at a concrete input. -/
theorem command_unit_forwarding_witness :
    messageDispatch "!".toList "@bot:example.org" "@user:example.org" false
        "!".toList
      = [Dispatch.commandPipeline ("!".toList.drop "!".toList.length)]
    ∧ (pySplitWs (("!".toList.drop "!".toList.length).map Char.toLower) = [] →
        commandProcess ("!".toList.drop "!".toList.length)
          = CommandOutcome.indexError) :=
  command_unit_forwarding "!".toList "@bot:example.org" "@user:example.org" false
    "!".toList (by decide) (by decide)

/-- Counterexample to C10 as stated: the body consisting of the bare
prefix is not dropped silently — the command pipeline is invoked with the
empty string and `Command.process` raises `IndexError` on it. -/
theorem empty_command_unit_counterexample :
    messageDispatch "!".toList "@bot:example.org" "@user:example.org" false
        "!".toList
      = [Dispatch.commandPipeline []]
    ∧ commandProcess [] = CommandOutcome.indexError := by
  refine ⟨by decide, by decide⟩

end MatrixWeatherBot
